import Mathlib

/-!
Verification development for the TrainingLoad analytic core.

The definitions below are shallow embeddings of the Python functions in
`backend/streams_analysis.py`, `backend/utils.py`,
`backend/training_recommendations.py` and
`backend/research_threshold_calculator.py`.  Numeric data is modelled with
exact rationals (ℚ); the only place real numbers appear is where the source
uses transcendental operations (`np.exp`, fractional `np.power`), which are
modelled with `Real.exp` / real exponentiation.  Python float arithmetic is
idealised as exact arithmetic throughout.
-/

namespace TrainingLoad

/-- Arithmetic mean of a rational list (`np.mean`).  On the empty list this
is `0/0 = 0` under the rational division convention, which coincides with the
explicit `0` returns the Python code uses for empty data. -/
def mean (l : List ℚ) : ℚ := l.sum / l.length

/-- `max(...)` over a nonempty Python list; `0` on the empty list (the code
only applies it to nonempty lists). -/
def listMax : List ℚ → ℚ
  | [] => 0
  | x :: xs => xs.foldl max x

/-- Element lookup `l[i]` for indices that the source code keeps in range;
out-of-range defaults to 0 (never reached on the paths modelled). -/
def nth (l : List ℚ) (i : ℕ) : ℚ := (l.get? i).getD 0

/-- The inner scan of the sliding-window loops in
`find_best_power_effort` / `find_best_pace_effort`
(streams_analysis.py lines 36-42 and 91-97): starting from `start`,
`end_idx` becomes the first index `i` with `time_data[i] >= target_end_time`,
or the last index of the list when no sample reaches the target time. -/
def findEndIdx (time_data : List ℚ) (start : ℕ) (target_end_time : ℚ) : ℕ :=
  match (List.range' start (time_data.length - start)).find?
      (fun i => target_end_time ≤ nth time_data i) with
  | some i => i
  | none => time_data.length - 1

/-- One step of the `find_best_power_effort` sliding-window loop
(streams_analysis.py lines 31-53).  The window mean excludes non-positive
power samples; a window whose positive part is empty produces `np.mean([]) =
nan` in Python, which fails the `>` comparison exactly as the value `0`
(mean of the empty list) fails it here, the running best being nonnegative. -/
def powerStep (power_data time_data : List ℚ) (duration_seconds : ℚ)
    (acc : ℚ × ℕ × ℕ) (start_idx : ℕ) : ℚ × ℕ × ℕ :=
  let start_time := nth time_data start_idx
  let end_idx := findEndIdx time_data start_idx (start_time + duration_seconds)
  if end_idx > start_idx then
    let actual_duration := nth time_data end_idx - start_time
    if actual_duration ≥ duration_seconds * (19/20) then
      let window_power := (power_data.drop start_idx).take (end_idx + 1 - start_idx)
      let avg_power := mean (window_power.filter (fun p => decide (0 < p)))
      if avg_power > acc.1 then (avg_power, start_idx, end_idx) else acc
    else acc
  else acc

/-- `find_best_power_effort` (streams_analysis.py lines 6-59). -/
def find_best_power_effort (power_data time_data : List ℚ)
    (duration_minutes : ℚ) : ℚ × ℕ × ℕ :=
  if power_data = [] ∨ time_data = [] ∨ power_data.length ≠ time_data.length then
    (0, 0, 0)
  else if power_data.length < 2 then
    (power_data.headD 0, 0, 0)
  else
    (List.range time_data.length).foldl
      (powerStep power_data time_data (duration_minutes * 60)) (0, 0, 0)

/-- One step of the `find_best_pace_effort` sliding-window loop
(streams_analysis.py lines 87-110). -/
def paceStep (distance_data time_data : List ℚ) (duration_seconds : ℚ)
    (acc : ℚ × ℕ × ℕ) (start_idx : ℕ) : ℚ × ℕ × ℕ :=
  let start_time := nth time_data start_idx
  let end_idx := findEndIdx time_data start_idx (start_time + duration_seconds)
  if end_idx > start_idx then
    let actual_duration := nth time_data end_idx - start_time
    if actual_duration ≥ duration_seconds * (19/20) then
      let distance_covered := nth distance_data end_idx - nth distance_data start_idx
      if distance_covered > 0 then
        let pace_mps := distance_covered / actual_duration
        if pace_mps > acc.1 then (pace_mps, start_idx, end_idx) else acc
      else acc
    else acc
  else acc

/-- `find_best_pace_effort` (streams_analysis.py lines 62-116). -/
def find_best_pace_effort (distance_data time_data : List ℚ)
    (duration_minutes : ℚ) : ℚ × ℕ × ℕ :=
  if distance_data = [] ∨ time_data = [] ∨ distance_data.length ≠ time_data.length then
    (0, 0, 0)
  else if distance_data.length < 2 then
    (0, 0, 0)
  else
    (List.range time_data.length).foldl
      (paceStep distance_data time_data (duration_minutes * 60)) (0, 0, 0)

/-- `estimate_functional_threshold_pace_from_streams`
(streams_analysis.py lines 168-227). -/
def estimate_functional_threshold_pace_from_streams
    (distance_data time_data : List ℚ) : Option ℚ × String :=
  if distance_data = [] ∨ time_data = [] ∨ distance_data.length ≠ time_data.length then
    (none, "insufficient_data")
  else
    let best_60min_pace := (find_best_pace_effort distance_data time_data 60).1
    if best_60min_pace > 2 then (some best_60min_pace, "60min_threshold")
    else
      let best_30min_pace := (find_best_pace_effort distance_data time_data 30).1
      if best_30min_pace > 11/5 then (some (best_30min_pace * (97/100)), "30min_test")
      else
        let best_20min_pace := (find_best_pace_effort distance_data time_data 20).1
        if best_20min_pace > 5/2 then (some (best_20min_pace * (19/20)), "20min_test")
        else
          let best_40min_pace := (find_best_pace_effort distance_data time_data 40).1
          if best_40min_pace > 14/5 then (some (best_40min_pace * (49/50)), "10k_pace")
          else
            let activity_duration_min := listMax time_data / 60
            if activity_duration_min ≥ 15 then
              let best_15min_pace := (find_best_pace_effort distance_data time_data 15).1
              if best_15min_pace > 3 then
                (some (best_15min_pace * (9/10)), "15min_conservative")
              else (none, "no_suitable_efforts")
            else (none, "no_suitable_efforts")

/-- The list of 30-sample rolling averages `np.mean(power_data[i:i+30])` for
`i in range(len(power_data) - 29)` (utils.py lines 186-189). -/
def rolling_avg_30 (power_data : List ℚ) : List ℚ :=
  (List.range (power_data.length - 29)).map
    (fun i => mean ((power_data.drop i).take 30))

/-- `calculate_normalized_power` (utils.py lines 179-201).  The 4th root
`np.power(_, 0.25)` is modelled by real exponentiation with exponent `1/4`;
no exception can occur in the exact-arithmetic model, so the `except`
fallback is dead. -/
noncomputable def calculate_normalized_power (power_data : List ℚ) : ℝ :=
  if power_data = [] then 0
  else if power_data.length < 30 then ((mean power_data : ℚ) : ℝ)
  else
    let fourth_powers := (rolling_avg_30 power_data).map (fun avg => avg ^ 4)
    (((mean fourth_powers : ℚ) : ℝ)) ^ ((1 : ℝ) / 4)

/-- `max(0, min(1, x))` clamping used by both TRIMP variants
(utils.py lines 215 and 246). -/
def clamp01 (x : ℚ) : ℚ := max 0 (min 1 x)

/-- The `activity_scaling` dictionary of `calculate_improved_trimp`
(utils.py lines 261-278), including the `.get(..., default)` fallback. -/
def activity_scaling (activity_type : String) : ℚ :=
  if activity_type = "run" ∨ activity_type = "running" then 1
  else if activity_type = "ride" ∨ activity_type = "cycling" then 19/20
  else if activity_type = "hike" ∨ activity_type = "hiking" then 11/20
  else if activity_type = "walk" ∨ activity_type = "walking" then 9/20
  else if activity_type = "swim" ∨ activity_type = "swimming" then 19/20
  else if activity_type = "workout" ∨ activity_type = "crosstraining" then 4/5
  else if activity_type = "elliptical" then 7/10
  else if activity_type = "alpineski" then 9/10
  else if activity_type = "nordicski" then 19/20
  else 3/4

/-- `calculate_improved_trimp` (utils.py lines 229-294).  `np.exp` is
modelled by `Real.exp`. -/
noncomputable def calculate_improved_trimp (hr_data : List ℚ)
    (max_hr resting_hr duration_seconds : ℚ) (activity_type : String) : ℝ :=
  if hr_data = [] ∨ max_hr ≤ resting_hr then 0
  else
    let hr_reserve := max_hr - resting_hr
    let avg_hr := mean hr_data
    let hr_fraction := clamp01 ((avg_hr - resting_hr) / hr_reserve)
    let duration_minutes := duration_seconds / 60
    let base_trimp : ℝ :=
      (duration_minutes : ℝ) * (hr_fraction : ℝ) *
        ((1/2) * Real.exp ((3/2) * (hr_fraction : ℝ)))
    let adjusted_trimp := base_trimp * ((activity_scaling activity_type : ℚ) : ℝ)
    let max_reasonable_trimp : ℝ := ((duration_minutes * (6/5) : ℚ) : ℝ)
    min adjusted_trimp max_reasonable_trimp

/-- The HRV sub-modifier of `apply_wellness_modifiers`
(utils.py lines 311-322): the multiplicative factor. -/
def hrv_modifier : Option ℚ → ℚ
  | none => 1
  | some hrv => if hrv < 20 then 4/5 else if hrv > 50 then 11/10 else 1

/-- The HRV sub-modifier's contribution to the `modifiers` name list. -/
def hrv_modifier_names : Option ℚ → List String
  | none => []
  | some hrv => if hrv < 20 then ["low_hrv"] else if hrv > 50 then ["high_hrv"] else []

/-- The sleep-score sub-modifier of `apply_wellness_modifiers`
(utils.py lines 325-335). -/
def sleep_modifier : Option ℚ → ℚ
  | none => 1
  | some s => if s < 60 then 17/20 else if s > 85 then 21/20 else 1

/-- The sleep-score sub-modifier's contribution to the name list. -/
def sleep_modifier_names : Option ℚ → List String
  | none => []
  | some s => if s < 60 then ["poor_sleep"] else if s > 85 then ["great_sleep"] else []

/-- The readiness sub-modifier of `apply_wellness_modifiers`
(utils.py lines 338-348). -/
def readiness_modifier : Option ℚ → ℚ
  | none => 1
  | some r => if r < 50 then 4/5 else if r > 80 then 11/10 else 1

/-- The readiness sub-modifier's contribution to the name list. -/
def readiness_modifier_names : Option ℚ → List String
  | none => []
  | some r => if r < 50 then ["low_readiness"] else if r > 80 then ["high_readiness"] else []

/-- One day of wellness data as consumed by `apply_wellness_modifiers`:
the `hrv`, `sleepScore` and `readiness` keys, each optional. -/
structure Wellness where
  hrv : Option ℚ
  sleepScore : Option ℚ
  readiness : Option ℚ
deriving DecidableEq

/-- `apply_wellness_modifiers` (utils.py lines 297-353).  `none` covers both
`wellness_data is None` and the falsy empty dict. -/
def apply_wellness_modifiers (base_utl : ℝ) (wellness_data : Option Wellness) :
    ℝ × String :=
  match wellness_data with
  | none => (base_utl, "")
  | some w =>
    let total_modifier :=
      hrv_modifier w.hrv * sleep_modifier w.sleepScore * readiness_modifier w.readiness
    let modifiers :=
      hrv_modifier_names w.hrv ++ sleep_modifier_names w.sleepScore ++
        readiness_modifier_names w.readiness
    let modifier_string :=
      if modifiers = [] then "" else "_wellness_" ++ String.intercalate "_" modifiers
    (base_utl * ((total_modifier : ℚ) : ℝ), modifier_string)

/-- Consecutive-sample paces, `analyze_running_intensity_distribution`
(streams_analysis.py lines 313-321): for each `i` in `range(1, len)`,
`(distance[i]-distance[i-1]) / (time[i]-time[i-1])` when the time step is
positive, else `0`. -/
def instantaneous_paces (distance_data time_data : List ℚ) : List ℚ :=
  (List.range (distance_data.length - 1)).map (fun i =>
    let distance_diff := nth distance_data (i+1) - nth distance_data i
    let time_diff := nth time_data (i+1) - nth time_data i
    if time_diff > 0 then distance_diff / time_diff else 0)

/-- The `intensity_classification` field of
`analyze_running_intensity_distribution` (streams_analysis.py lines
284-371); `none` models the error-dict returns (no classification key).
The zone-percentage entries of the returned dict are folded into the
classification, the only field any caller in src reads. -/
def intensity_classification (distance_data time_data : List ℚ) : Option String :=
  match (estimate_functional_threshold_pace_from_streams distance_data time_data).1 with
  | none => none
  | some threshold_pace =>
    let paces := instantaneous_paces distance_data time_data
    if paces = [] then none
    else
      let total_points : ℚ := paces.length
      let positives := paces.filter (fun p => decide (p > 0))
      let percent := fun (p : ℚ) => p / threshold_pace * 100
      let zone_2 : ℚ := (positives.filter (fun p => decide (81 ≤ percent p ∧ percent p < 89))).length
      let zone_3 : ℚ := (positives.filter (fun p => decide (89 ≤ percent p ∧ percent p < 94))).length
      let zone_456 : ℚ := (positives.filter (fun p => decide (94 ≤ percent p))).length
      let zone_2_percent := zone_2 / total_points * 100
      let zone_3_percent := zone_3 / total_points * 100
      let zone_456_percent := zone_456 / total_points * 100
      some (if zone_456_percent > 30 then "high_intensity"
        else if zone_3_percent > 20 then "tempo"
        else if zone_2_percent > 60 then "aerobic_base"
        else "recovery")

/-- The `intensity_multipliers` dict of `calculate_utl`
(utils.py lines 84-91), with the `.get(..., 1.0)` default. -/
def intensity_multipliers (intensity_type : String) : ℚ :=
  if intensity_type = "recovery" then 1/2
  else if intensity_type = "aerobic_base" then 4/5
  else if intensity_type = "tempo" then 6/5
  else if intensity_type = "high_intensity" then 9/5
  else 1

/-- The `intensity_factors` dict of `calculate_utl`'s conservative fallback
(utils.py lines 144-156). -/
def intensity_factors (activity_type : String) : ℚ :=
  if activity_type = "run" ∨ activity_type = "running" then 1
  else if activity_type = "ride" ∨ activity_type = "cycling" then 9/10
  else if activity_type = "swim" ∨ activity_type = "swimming" then 11/10
  else if activity_type = "hike" then 2/5
  else if activity_type = "walk" then 3/10
  else 4/5

/-- The conservative fallback score of `calculate_utl`
(utils.py lines 142-165). -/
def conservative_utl (activity_type : String) (moving_time_hours : ℚ) : ℚ :=
  let intensity := intensity_factors activity_type
  let time_factor :=
    if moving_time_hours > 2 then 2 + (moving_time_hours - 2) * (1/2)
    else moving_time_hours
  time_factor * intensity * 100

/-- Python's `str.lower()` as used on activity-type strings
(`activity_summary.get("type", "").lower()`), modelled characterwise so that
it evaluates structurally. -/
def str_lower (s : String) : String := ⟨s.data.map Char.toLower⟩

/-- The user's performance thresholds, with each field optional
(nullable columns of the Threshold model). -/
structure Threshold where
  ftp_watts : Option ℚ
  fthp_mps : Option ℚ
  max_hr : Option ℚ
  resting_hr : Option ℚ
deriving DecidableEq

/-- The fields of the Strava activity summary that `calculate_utl` reads:
`type`, `moving_time` (seconds) and `distance` (meters). -/
structure ActivitySummary where
  type : String
  moving_time : ℚ
  distance : ℚ
deriving DecidableEq

/-- Optional stream data: `some l` models the presence of the stream key
with data list `l`; `none` models an absent key. -/
structure Streams where
  watts : Option (List ℚ)
  heartrate : Option (List ℚ)
  distance : Option (List ℚ)
  time : Option (List ℚ)
deriving DecidableEq

/-- Python truthiness of an optional numeric field
(`threshold.max_hr and ...`): present and nonzero. -/
def truthy : Option ℚ → Bool
  | none => false
  | some x => x ≠ 0

/-- The common guard of `calculate_utl`'s TRIMP rule (utils.py lines 56-59)
and heart-rate-intensity rule (utils.py lines 116-120): both check, in the
same order, that streams with a `heartrate` key exist, that `max_hr` and
`resting_hr` are truthy, and that the heart-rate data is nonempty; on
success both use the extracted data.  The checks are literally identical in
the source, hence shared here. -/
def hr_rule_data (activity_streams : Option Streams) (threshold : Threshold) :
    Option (List ℚ × ℚ × ℚ) :=
  match activity_streams with
  | none => none
  | some streams =>
    match streams.heartrate with
    | none => none
    | some hr_data =>
      match threshold.max_hr, threshold.resting_hr with
      | some m, some r =>
        if truthy (some m) ∧ truthy (some r) ∧ hr_data ≠ [] then some (hr_data, m, r)
        else none
      | _, _ => none

/-- Rule 1 of `calculate_utl`: TSS for cycling with power data and a
positive FTP (utils.py lines 35-43). -/
noncomputable def rule_tss (activity_type : String) (moving_time_seconds : ℚ)
    (threshold : Threshold) (activity_streams : Option Streams) :
    Option (ℝ × String) :=
  match activity_streams with
  | none => none
  | some streams =>
    if activity_type = "ride" ∨ activity_type = "cycling" then
      match streams.watts with
      | none => none
      | some power_data =>
        match threshold.ftp_watts with
        | none => none
        | some ftp =>
          if 0 < ftp ∧ power_data ≠ [] then
            let normalized_power := calculate_normalized_power power_data
            let intensity_factor := normalized_power / (ftp : ℝ)
            some (((moving_time_seconds : ℝ) * normalized_power * intensity_factor) /
              ((ftp : ℝ) * 36), "TSS")
          else none
    else none

/-- Rule 2 of `calculate_utl`: rTSS for running with a positive FTHP and
positive distance (utils.py lines 45-53). -/
def rule_rtss (activity_type : String) (moving_time_seconds distance_m : ℚ)
    (threshold : Threshold) : Option (ℚ × String) :=
  if activity_type = "run" ∨ activity_type = "running" then
    match threshold.fthp_mps with
    | none => none
    | some fthp =>
      if 0 < fthp ∧ 0 < distance_m then
        let avg_pace_mps := distance_m / moving_time_seconds
        let intensity_factor := fthp / avg_pace_mps
        some ((moving_time_seconds / 3600) * intensity_factor * intensity_factor * 100,
          "rTSS")
      else none
  else none

/-- Rule 3 of `calculate_utl`: improved TRIMP (utils.py lines 55-63). -/
noncomputable def rule_trimp (activity_type : String) (moving_time_seconds : ℚ)
    (threshold : Threshold) (activity_streams : Option Streams) :
    Option (ℝ × String) :=
  (hr_rule_data activity_streams threshold).map (fun hmr =>
    (calculate_improved_trimp hmr.1 hmr.2.1 hmr.2.2 moving_time_seconds activity_type,
      "TRIMP"))

/-- Rule 4 of `calculate_utl`: running intensity distribution
(utils.py lines 68-96).  The fetched `hr_data` is unused by
`analyze_running_intensity_distribution`, whose `heartrate_data` parameter
is dead, and so is not modelled. -/
def rule_running_intensity (activity_type : String) (moving_time_hours : ℚ)
    (activity_streams : Option Streams) : Option (ℚ × String) :=
  match activity_streams with
  | none => none
  | some streams =>
    if activity_type = "run" ∨ activity_type = "running" then
      match streams.distance with
      | none => none
      | some distance_data =>
        let time_data :=
          streams.time.getD ((List.range distance_data.length).map (fun n => (n : ℚ)))
        match intensity_classification distance_data time_data with
        | none => none
        | some intensity_type =>
          let multiplier := intensity_multipliers intensity_type
          some (moving_time_hours * multiplier * 100,
            "running_intensity_" ++ intensity_type)
    else none

/-- Rule 5 of `calculate_utl`: cycling power intensity
(utils.py lines 98-113).  Note the guard only requires `ftp_watts` truthy,
not positive. -/
def rule_power_intensity (activity_type : String) (moving_time_hours : ℚ)
    (threshold : Threshold) (activity_streams : Option Streams) :
    Option (ℚ × String) :=
  match activity_streams with
  | none => none
  | some streams =>
    if activity_type = "ride" ∨ activity_type = "cycling" then
      match streams.watts with
      | none => none
      | some power_data =>
        match threshold.ftp_watts with
        | none => none
        | some ftp =>
          if power_data ≠ [] ∧ truthy (some ftp) then
            let avg_power := mean power_data
            let intensity_factor := avg_power / ftp
            some (intensity_factor ^ 2 * moving_time_hours * 100, "power_intensity")
          else none
    else none

/-- A plain decimal rendering standing in for the one-decimal float
formatting used in the heart-rate-intensity tag (utils.py line 138).  The branch producing it is
unreachable (its guard equals the TRIMP rule's guard, claim C10), so no
caller can observe the rendering; the rounding mode of the float format is
therefore not reproduced exactly. -/
def format_1dp (x : ℚ) : String :=
  let n : Int := ⌊x * 10⌋
  toString (n / 10) ++ "." ++ toString (n % 10)

/-- Rule 6 of `calculate_utl`: heart-rate intensity (utils.py lines
115-140).  Its guard is `hr_rule_data`, identical to the TRIMP rule's.
In Python a zero heart-rate reserve would raise ZeroDivisionError and fall
through; in this exact model division by zero yields 0 — the difference is
unobservable because the branch is unreachable. -/
def rule_hr_intensity (moving_time_hours : ℚ) (threshold : Threshold)
    (activity_streams : Option Streams) : Option (ℚ × String) :=
  (hr_rule_data activity_streams threshold).map (fun hmr =>
    let avg_hr := mean hmr.1
    let hr_reserve := hmr.2.1 - hmr.2.2
    let avg_intensity := (avg_hr - hmr.2.2) / hr_reserve
    let intensity_multiplier : ℚ :=
      if avg_intensity < 3/5 then 1/2
      else if avg_intensity < 7/10 then 4/5
      else if avg_intensity < 4/5 then 6/5
      else 9/5
    (moving_time_hours * intensity_multiplier * 100,
      "hr_intensity_" ++ format_1dp avg_intensity))

/-- `calculate_utl` (utils.py lines 14-176): the ordered decision chain.
Each early-`return` block of the Python function is one `rule_*` helper
returning `none` exactly when control falls through to the next block;
no exception is possible in the exact-arithmetic model, so the outer
`except` returning `(0.0, "error")` is dead code. -/
noncomputable def calculate_utl (activity_summary : ActivitySummary)
    (threshold : Threshold) (activity_streams : Option Streams)
    (wellness_data : Option Wellness) : ℝ × String :=
  let activity_type := str_lower activity_summary.type
  let moving_time_seconds := activity_summary.moving_time
  let moving_time_hours := moving_time_seconds / 3600
  if moving_time_hours = 0 then (0, "no_time")
  else
    match rule_tss activity_type moving_time_seconds threshold activity_streams with
    | some r => r
    | none =>
      match rule_rtss activity_type moving_time_seconds activity_summary.distance
          threshold with
      | some r => ((r.1 : ℝ), r.2)
      | none =>
        match rule_trimp activity_type moving_time_seconds threshold activity_streams with
        | some r => r
        | none =>
          match rule_running_intensity activity_type moving_time_hours activity_streams with
          | some r => ((r.1 : ℝ), r.2)
          | none =>
            match rule_power_intensity activity_type moving_time_hours threshold
                activity_streams with
            | some r => ((r.1 : ℝ), r.2)
            | none =>
              match rule_hr_intensity moving_time_hours threshold activity_streams with
              | some r => ((r.1 : ℝ), r.2)
              | none =>
                let conservative := conservative_utl activity_type moving_time_hours
                match wellness_data with
                | none => (((conservative : ℚ) : ℝ), "conservative_time_based")
                | some w =>
                  let modified := apply_wellness_modifiers ((conservative : ℚ) : ℝ) (some w)
                  (modified.1, "conservative_time_based" ++ modified.2)

/-- The overall acute:chronic workload computation of
`_calculate_workload_ratios` (training_recommendations.py line 267):
`acute_load / chronic_load if chronic_load > 0 else 1.0`.  Note there is no
`acute_load` case split for the overall window. -/
def overall_acw (acute_load chronic_load : ℚ) : ℚ :=
  if chronic_load > 0 then acute_load / chronic_load else 1

/-- The per-sport acute:chronic workload computation of
`_calculate_sport_specific_acwr` (training_recommendations.py lines
312-314): `acute/chronic if chronic > 0 else (1.0 if acute > 0 else 0.0)`. -/
def sport_acw (acute_load chronic_load : ℚ) : ℚ :=
  if chronic_load > 0 then acute_load / chronic_load
  else if acute_load > 0 then 1 else 0

/-- `_assess_acwr_risk` (training_recommendations.py lines 344-353), with
`MAX_ACW_RATIO = 1.3` and `MIN_ACW_RATIO = 0.8` from `__init__`; returns
the `(level, note)` pair of the risk dict. -/
def assess_acwr_risk (acwr : ℚ) : String × String :=
  if acwr > 13/10 then ("high", "Acute load too high - injury risk increased")
  else if acwr < 8/10 then ("detraining", "Load too low - fitness may decline")
  else if acwr > 12/10 then ("moderate", "Approaching upper safe limit")
  else ("low", "Load within safe parameters")

/-- The per-sport risk levels available to `_assess_combined_risk` through
the `sport_specific` dict, which carries `running`, `cycling` and `other`
entries (training_recommendations.py lines 316-341). -/
structure SportSpecificRisks where
  running : String
  cycling : String
  other : String
deriving DecidableEq

/-- The `risk_hierarchy` dict of `_assess_combined_risk`
(training_recommendations.py line 362), with the `.get(..., 0)` default. -/
def risk_hierarchy (level : String) : ℕ :=
  if level = "low" then 0
  else if level = "moderate" then 1
  else if level = "detraining" then 1
  else if level = "high" then 2
  else 0

/-- The `risk_levels` back-mapping of `_assess_combined_risk`
(training_recommendations.py line 370): `{0: low, 1: moderate, 2: high}`. -/
def risk_levels (score : ℕ) : String :=
  if score = 0 then "low" else if score = 1 then "moderate" else "high"

/-- The combined risk level of `_assess_combined_risk`
(training_recommendations.py lines 355-372).  The function reads only the
`running` and `cycling` entries of `sport_specific`; the `other` entry is
never consulted.  The accompanying `note` string is presentation-only and
not modelled. -/
def assess_combined_risk (overall_risk_level : String)
    (sport_specific : SportSpecificRisks) : String :=
  let max_risk_score :=
    max (risk_hierarchy overall_risk_level)
      (max (risk_hierarchy sport_specific.running)
        (risk_hierarchy sport_specific.cycling))
  risk_levels max_risk_score

/-- The threshold update acceptance test of
`update_thresholds_from_activity_streams`
(research_threshold_calculator.py lines 330-334 for FTP and 354-358 for
FTHP): `if not current or candidate > current * 1.02`.  Python truthiness
makes a stored value of `0` count as absent. -/
def accept_threshold (existing : Option ℚ) (candidate : ℚ) : Bool :=
  match existing with
  | none => true
  | some current => current = 0 ∨ candidate > current * (51/50)

/-- The resulting stored threshold: the candidate replaces the stored value
exactly when `accept_threshold` holds, otherwise the store is untouched. -/
def apply_threshold_update (existing : Option ℚ) (candidate : ℚ) : Option ℚ :=
  if accept_threshold existing candidate then some candidate else existing

/-! ## Theorems -/

/-- The mean of a constant list is its value. -/
theorem mean_replicate (k : ℕ) (x : ℚ) (hk : k ≠ 0) :
    mean (List.replicate k x) = x := by
  simp only [mean, List.sum_replicate, List.length_replicate, nsmul_eq_mul]
  exact mul_div_cancel_left₀ x (by exact_mod_cast hk)

/-- C1: for a power series of at least 30 samples, `normalized_power` is
the 4th root of the mean of the 4th powers of all 30-sample rolling
averages; for fewer than 30 samples it is the arithmetic mean (`0`, the
empty mean, for no samples); on a constant nonnegative series of value `p`
with at least 30 samples it is exactly `p`. -/
theorem normalized_power_spec (l : List ℚ) (p : ℚ) (n : ℕ) :
    (30 ≤ l.length →
      calculate_normalized_power l =
        ((mean ((rolling_avg_30 l).map (fun avg => avg ^ 4)) : ℚ) : ℝ) ^ ((1:ℝ)/4)) ∧
    (l.length < 30 → calculate_normalized_power l = ((mean l : ℚ) : ℝ)) ∧
    (0 ≤ p → 30 ≤ n →
      calculate_normalized_power (List.replicate n p) = (p : ℝ)) := by
  have main : ∀ m : List ℚ, 30 ≤ m.length →
      calculate_normalized_power m =
        ((mean ((rolling_avg_30 m).map (fun avg => avg ^ 4)) : ℚ) : ℝ) ^ ((1:ℝ)/4) := by
    intro m hm
    have hne : m ≠ [] := by
      intro e
      rw [e] at hm
      simp at hm
    unfold calculate_normalized_power
    rw [if_neg hne, if_neg (by omega)]
  refine ⟨main l, ?_, ?_⟩
  · intro hlt
    by_cases he : l = []
    · subst he
      simp [calculate_normalized_power, mean]
    · unfold calculate_normalized_power
      rw [if_neg he, if_pos hlt]
  · intro hp hn
    have hlen : (List.replicate n p).length = n := List.length_replicate n p
    rw [main (List.replicate n p) (by omega)]
    have hroll : rolling_avg_30 (List.replicate n p) = List.replicate (n - 29) p := by
      unfold rolling_avg_30
      rw [hlen]
      have hmem : ∀ i ∈ List.range (n - 29),
          mean (((List.replicate n p).drop i).take 30) = p := by
        intro i hi
        rw [List.mem_range] at hi
        rw [List.drop_replicate, List.take_replicate]
        have hmin : min 30 (n - i) = 30 := by omega
        rw [hmin, mean_replicate 30 p (by norm_num)]
      calc (List.range (n - 29)).map (fun i => mean (((List.replicate n p).drop i).take 30))
          = (List.range (n - 29)).map (fun _ => p) := List.map_congr_left hmem
        _ = List.replicate (n - 29) p := by
            rw [List.map_const', List.length_range]
    rw [hroll, List.map_replicate, mean_replicate _ _ (by omega)]
    push_cast
    rw [show ((p : ℝ) ^ (4:ℕ)) = (p : ℝ) ^ ((4:ℕ):ℝ) from (Real.rpow_natCast _ 4).symm,
      ← Real.rpow_mul (by exact_mod_cast hp)]
    norm_num

/-- Witness for C1: a constant 5-watt series of exactly 30 samples. -/
theorem normalized_power_spec_witness :
    calculate_normalized_power (List.replicate 30 5) = ((5 : ℚ) : ℝ) :=
  (normalized_power_spec [] 5 30).2.2 (by norm_num) (by norm_num)

/-- C2 counterexample: for the activity class `elliptical` the code uses a
scaling factor of `0.70`, not the claim's `default 0.75`; on a one-hour
effort at heart-rate fraction `1/2` the claim's formula
`min(duration_minutes * f * 0.5 * e^(1.5 f) * 0.75, duration_minutes * 1.2)`
therefore disagrees with the computed score. -/
theorem improved_trimp_claim_counterexample :
    calculate_improved_trimp [120] 190 50 3600 "elliptical" ≠
      min ((60:ℝ) * (1/2) * ((1/2) * Real.exp ((3/2) * (1/2))) * (3/4))
        ((60:ℝ) * (6/5)) := by
  have hmean : mean [(120:ℚ)] = 120 := by norm_num [mean]
  have hcl : clamp01 ((120 - 50) / (190 - 50)) = 1/2 := by
    norm_num [clamp01, min_def, max_def]
  have hsc : activity_scaling "elliptical" = 7/10 := rfl
  unfold calculate_improved_trimp
  rw [if_neg (by norm_num)]
  simp only [hmean, hcl, hsc]
  push_cast
  norm_num
  have hpos : 0 < Real.exp ((3:ℝ)/2 * (1/2)) := Real.exp_pos _
  have hlt : Real.exp ((3:ℝ)/2 * (1/2)) < 3 := by
    calc Real.exp ((3:ℝ)/2 * (1/2)) < Real.exp 1 := Real.exp_lt_exp.mpr (by norm_num)
      _ < 3 := lt_of_lt_of_le Real.exp_one_lt_d9 (by norm_num)
  rw [min_eq_left (by nlinarith), min_eq_left (by nlinarith)]
  intro h
  nlinarith

/-- C2 amended: for every nonempty heart-rate stream and thresholds with
`max_hr > resting_hr`, the improved-TRIMP score is
`min(duration_minutes * f * (0.5 * e^(1.5 f)) * scaling, duration_minutes * 1.2)`
with `f = clamp((avg_hr - resting_hr)/(max_hr - resting_hr), 0, 1)` and the
full scaling table: run/running 1.00, ride/cycling 0.95, swim/swimming
0.95, hike/hiking 0.55, walk/walking 0.45, workout/crosstraining 0.80,
elliptical 0.70, alpineski 0.90, nordicski 0.95, default 0.75. -/
theorem improved_trimp_amended (hr_data : List ℚ)
    (max_hr resting_hr duration_seconds : ℚ) (ty : String)
    (h1 : hr_data ≠ []) (h2 : resting_hr < max_hr) :
    (calculate_improved_trimp hr_data max_hr resting_hr duration_seconds ty =
      min (((duration_seconds / 60 : ℚ) : ℝ) *
          ((clamp01 ((mean hr_data - resting_hr) / (max_hr - resting_hr)) : ℚ) : ℝ) *
          ((1/2) * Real.exp ((3/2) *
            ((clamp01 ((mean hr_data - resting_hr) / (max_hr - resting_hr)) : ℚ) : ℝ))) *
          ((activity_scaling ty : ℚ) : ℝ))
        (((duration_seconds / 60) * (6/5) : ℚ) : ℝ)) ∧
    activity_scaling "running" = 1 ∧ activity_scaling "run" = 1 ∧
    activity_scaling "cycling" = 19/20 ∧ activity_scaling "ride" = 19/20 ∧
    activity_scaling "swimming" = 19/20 ∧ activity_scaling "swim" = 19/20 ∧
    activity_scaling "hiking" = 11/20 ∧ activity_scaling "hike" = 11/20 ∧
    activity_scaling "walking" = 9/20 ∧ activity_scaling "walk" = 9/20 ∧
    activity_scaling "workout" = 4/5 ∧ activity_scaling "crosstraining" = 4/5 ∧
    activity_scaling "elliptical" = 7/10 ∧ activity_scaling "alpineski" = 9/10 ∧
    activity_scaling "nordicski" = 19/20 ∧
    (ty ∉ ["run", "running", "ride", "cycling", "hike", "hiking", "walk", "walking",
        "swim", "swimming", "workout", "crosstraining", "elliptical", "alpineski",
        "nordicski"] → activity_scaling ty = 3/4) := by
  refine ⟨?_, rfl, rfl, rfl, rfl, rfl, rfl, rfl, rfl, rfl, rfl, rfl, rfl, rfl, rfl,
    rfl, ?_⟩
  · unfold calculate_improved_trimp
    rw [if_neg (by push_neg; exact ⟨h1, h2⟩)]
  · intro hty
    simp only [List.mem_cons, List.not_mem_nil, or_false, not_or] at hty
    obtain ⟨g1, g2, g3, g4, g5, g6, g7, g8, g9, g10, g11, g12, g13, g14, g15⟩ := hty
    simp [activity_scaling, g1, g2, g3, g4, g5, g6, g7, g8, g9, g10, g11, g12, g13,
      g14, g15]

/-- Witness for C2 amended: scenario C of the spec (running, one hour,
avg HR 120 against 50/190 thresholds). -/
theorem improved_trimp_amended_witness :
    calculate_improved_trimp [120] 190 50 3600 "running" =
      min (((3600 / 60 : ℚ) : ℝ) *
          ((clamp01 ((mean [120] - 50) / (190 - 50)) : ℚ) : ℝ) *
          ((1/2) * Real.exp ((3/2) *
            ((clamp01 ((mean [120] - 50) / (190 - 50)) : ℚ) : ℝ))) *
          ((activity_scaling "running" : ℚ) : ℝ))
        (((3600 / 60) * (6/5) : ℚ) : ℝ) :=
  (improved_trimp_amended [120] 190 50 3600 "running" (by simp) (by norm_num)).1

/-- C4: `compute_utl` on an activity with `moving_time == 0` returns
`(0.0, "no_time")` whatever the activity type, thresholds, streams and
wellness inputs are; the rule is terminal, no other rule applies. -/
theorem calculate_utl_no_time (activity_summary : ActivitySummary)
    (threshold : Threshold) (activity_streams : Option Streams)
    (wellness_data : Option Wellness) (h : activity_summary.moving_time = 0) :
    calculate_utl activity_summary threshold activity_streams wellness_data =
      (0, "no_time") := by
  unfold calculate_utl
  simp [h]

/-- Witness for C4 at a concrete activity. -/
theorem calculate_utl_no_time_witness :
    calculate_utl ⟨"run", 0, 1000⟩ ⟨some 250, none, some 190, some 50⟩ none none =
      (0, "no_time") :=
  calculate_utl_no_time ⟨"run", 0, 1000⟩ ⟨some 250, none, some 190, some 50⟩ none none rfl

/-- C5 counterexample: with `chronic_load = 0` and `acute_load = 0` the
overall window's ratio is `1.0`, not the `0.0` the claim requires
(the overall computation has no `acute_load` case split). -/
theorem overall_acw_zero_zero : overall_acw 0 0 = 1 ∧ (1 : ℚ) ≠ 0 := by
  norm_num [overall_acw]

/-- C5 amended: the per-sport ratio is `acute/chronic` when `chronic > 0`,
else `1.0` when `acute > 0` and `0.0` otherwise; the overall ratio is
`acute/chronic` when `chronic > 0` but `1.0` whenever `chronic = 0`,
regardless of `acute`; the risk classification is `> 1.3` high, `< 0.8`
detraining, `1.2 < r ≤ 1.3` moderate, otherwise low. -/
theorem workload_window_amended (acute chronic r : ℚ) :
    (chronic > 0 → overall_acw acute chronic = acute / chronic ∧
      sport_acw acute chronic = acute / chronic) ∧
    (¬ chronic > 0 → overall_acw acute chronic = 1 ∧
      sport_acw acute chronic = (if acute > 0 then 1 else 0)) ∧
    ((assess_acwr_risk r).1 = "high" ↔ r > 13/10) ∧
    ((assess_acwr_risk r).1 = "detraining" ↔ r < 8/10) ∧
    ((assess_acwr_risk r).1 = "moderate" ↔ (12/10 < r ∧ r ≤ 13/10)) ∧
    ((assess_acwr_risk r).1 = "low" ↔ (8/10 ≤ r ∧ r ≤ 12/10)) := by
  refine ⟨?_, ?_, ?_, ?_, ?_, ?_⟩
  · intro h; simp [overall_acw, sport_acw, h]
  · intro h; simp [overall_acw, sport_acw, h]
  all_goals
    unfold assess_acwr_risk
    split_ifs <;> simp_all <;> try linarith
  all_goals intro h
  all_goals linarith

/-- Witness for C5 amended: chronic 0 with acute positive gives ratio 1 and
risk low, and ratio 3 classifies as high. -/
theorem workload_window_amended_witness :
    overall_acw 5 0 = 1 ∧ (assess_acwr_risk 3).1 = "high" ∧
      (assess_acwr_risk 1).1 = "low" :=
  ⟨((workload_window_amended 5 0 3).2.1 (by norm_num)).1,
    (workload_window_amended 5 0 3).2.2.1.mpr (by norm_num),
    (workload_window_amended 5 0 1).2.2.2.2.2.mpr (by norm_num)⟩

/-- C6 counterexample: a `high` risk in the `other` sport category is
ignored by `_assess_combined_risk` — with overall, running and cycling all
`low` the combined level is `low`, not the maximum-severity label `high`
demanded by the claim. -/
theorem combined_risk_ignores_other :
    assess_combined_risk "low" ⟨"low", "low", "high"⟩ = "low" ∧
      ("low" : String) ≠ "high" := by
  exact ⟨rfl, by decide⟩

/-- C6 amended: the combined risk level is the maximum-severity label among
the overall, running and cycling levels only (the `other` category is never
consulted), under `low < {moderate, detraining} < high`, with the two
severity-1 labels both reported as `moderate`. -/
theorem assess_combined_risk_amended (o r c ot : String)
    (ho : o ∈ ["low", "moderate", "detraining", "high"])
    (hr : r ∈ ["low", "moderate", "detraining", "high"])
    (hc : c ∈ ["low", "moderate", "detraining", "high"]) :
    (assess_combined_risk o ⟨r, c, ot⟩ = "high" ↔
      (o = "high" ∨ r = "high" ∨ c = "high")) ∧
    (assess_combined_risk o ⟨r, c, ot⟩ = "low" ↔
      (o = "low" ∧ r = "low" ∧ c = "low")) ∧
    (assess_combined_risk o ⟨r, c, ot⟩ = "moderate" ↔
      (¬(o = "high" ∨ r = "high" ∨ c = "high") ∧ ¬(o = "low" ∧ r = "low" ∧ c = "low"))) ∧
    (∀ ot', assess_combined_risk o ⟨r, c, ot'⟩ = assess_combined_risk o ⟨r, c, ot⟩) := by
  simp only [List.mem_cons, List.not_mem_nil, or_false] at ho hr hc
  refine ⟨?_, ?_, ?_, fun ot' => rfl⟩ <;>
    rw [show assess_combined_risk o ⟨r, c, ot⟩ =
      assess_combined_risk o ⟨r, c, "low"⟩ from rfl] <;>
    rcases ho with rfl | rfl | rfl | rfl <;>
    rcases hr with rfl | rfl | rfl | rfl <;>
    rcases hc with rfl | rfl | rfl | rfl <;> decide

/-- Witness for C6 amended: a single high cycling risk dominates. -/
theorem assess_combined_risk_amended_witness :
    assess_combined_risk "low" ⟨"low", "high", "low"⟩ = "high" :=
  (assess_combined_risk_amended "low" "low" "high" "low" (by decide) (by decide)
    (by decide)).1.mpr (Or.inr (Or.inr rfl))

/-- C7 counterexample: a stored threshold of `0` is falsy in Python, so a
candidate of `0` (which is `1.02 ×` the stored value and fails
`candidate > existing * 1.02`) is nevertheless accepted. -/
theorem accept_threshold_truthy_zero :
    accept_threshold (some 0) 0 = true ∧ some (0 : ℚ) ≠ none ∧
      ¬((0 : ℚ) > 0 * (51/50)) := by
  refine ⟨?_, by simp, by norm_num⟩
  norm_num [accept_threshold]

/-- C7 amended: a candidate is accepted iff the stored value is null, is
zero (Python falsiness), or exceeds the stored value by more than 2%; for
every positive stored value a `1.02 ×` candidate is rejected and a `1.03 ×`
candidate accepted; a rejected candidate leaves the store unchanged. -/
theorem accept_threshold_amended (e c : ℚ) (he : 0 < e) :
    (accept_threshold none c = true) ∧
    (accept_threshold (some e) c = true ↔ c > e * (51/50)) ∧
    (accept_threshold (some e) (e * (51/50)) = false) ∧
    (accept_threshold (some e) (e * (103/100)) = true) ∧
    (∀ ex cand, accept_threshold ex cand = false → apply_threshold_update ex cand = ex) ∧
    (∀ ex cand, accept_threshold ex cand = true →
      apply_threshold_update ex cand = some cand) := by
  have hne : e ≠ 0 := ne_of_gt he
  refine ⟨rfl, ?_, ?_, ?_, ?_, ?_⟩
  · simp [accept_threshold, hne]
  · simp [accept_threshold, hne]
  · simp only [accept_threshold, decide_eq_true_eq]
    right; nlinarith
  · intro ex cand h; simp [apply_threshold_update, h]
  · intro ex cand h; simp [apply_threshold_update, h]

/-- Witness for C7 amended at a stored FTP of 100 W. -/
theorem accept_threshold_amended_witness :
    accept_threshold (some 100) (100 * (103/100)) = true ∧
      accept_threshold (some 100) (100 * (51/50)) = false :=
  ⟨(accept_threshold_amended 100 0 (by norm_num)).2.2.2.1,
    (accept_threshold_amended 100 0 (by norm_num)).2.2.1⟩

/-- C8 counterexample: on a stream whose best 30-minute pace is `3 m/s`
(and with no 60-minute window), the code returns `3 * 0.97 = 2.91` with tag
`30min_test` — not the claim's inverse convention `3 / 0.97 ≈ 3.093`. -/
theorem estimate_fthp_multiplies_counterexample :
    estimate_functional_threshold_pace_from_streams [0, 5385] [0, 1795] =
      (some (291/100), "30min_test") ∧
    (find_best_pace_effort [0, 5385] [0, 1795] 30).1 = 3 ∧
    (291/100 : ℚ) ≠ 3 / (97/100) := by
  refine ⟨?_, ?_, by norm_num⟩
  · norm_num [estimate_functional_threshold_pace_from_streams, find_best_pace_effort,
      paceStep, findEndIdx, nth, listMax, List.range_succ, List.range', List.cons_ne_nil]
  · norm_num [find_best_pace_effort, paceStep, findEndIdx, nth, List.range_succ,
      List.range', List.cons_ne_nil]

/-- C8 amended: for well-formed input (nonempty, equal-length series) the
estimator tries, in order, 60-min (floor 2.0 m/s, factor 1), 30-min (floor
2.2, `× 0.97`), 20-min (floor 2.5, `× 0.95`), 40-min "10k pace" (floor 2.8,
`× 0.98`), and — only when the stream lasts at least 15 minutes — a 15-min
fallback (floor 3.0, `× 0.90`); factors multiply the best pace (no inverse
convention); when nothing fires the tag is `no_suitable_efforts`, while
`insufficient_data` is reserved for empty or length-mismatched input. -/
theorem estimate_fthp_amended (distance_data time_data : List ℚ)
    (h1 : distance_data ≠ []) (h2 : time_data ≠ [])
    (h3 : distance_data.length = time_data.length) :
    (estimate_functional_threshold_pace_from_streams distance_data time_data =
      (let p60 := (find_best_pace_effort distance_data time_data 60).1
       if p60 > 2 then (some p60, "60min_threshold")
       else
        let p30 := (find_best_pace_effort distance_data time_data 30).1
        if p30 > 11/5 then (some (p30 * (97/100)), "30min_test")
        else
          let p20 := (find_best_pace_effort distance_data time_data 20).1
          if p20 > 5/2 then (some (p20 * (19/20)), "20min_test")
          else
            let p40 := (find_best_pace_effort distance_data time_data 40).1
            if p40 > 14/5 then (some (p40 * (49/50)), "10k_pace")
            else
              if listMax time_data / 60 ≥ 15 then
                let p15 := (find_best_pace_effort distance_data time_data 15).1
                if p15 > 3 then (some (p15 * (9/10)), "15min_conservative")
                else (none, "no_suitable_efforts")
              else (none, "no_suitable_efforts"))) ∧
    (∀ a b : List ℚ, a = [] ∨ b = [] ∨ a.length ≠ b.length →
      estimate_functional_threshold_pace_from_streams a b =
        (none, "insufficient_data")) := by
  constructor
  · unfold estimate_functional_threshold_pace_from_streams
    rw [if_neg (by push_neg; exact ⟨h1, h2, h3⟩)]
  · intro a b h
    unfold estimate_functional_threshold_pace_from_streams
    rw [if_pos h]

/-- Witness for C8 amended: malformed (empty) input yields
`insufficient_data`. -/
theorem estimate_fthp_amended_witness :
    estimate_functional_threshold_pace_from_streams [] [] =
      (none, "insufficient_data") :=
  (estimate_fthp_amended [0] [0] (by simp) (by simp) rfl).2 [] [] (Or.inl rfl)

/-- The mean of the empty list is `0`. -/
theorem mean_nil : mean [] = 0 := by simp [mean]

/-- A fold whose step fixes the initial accumulator returns it. -/
theorem foldl_fixed {α β : Type} (f : α → β → α) (init : α) (l : List β)
    (h : ∀ b ∈ l, f init b = init) : l.foldl f init = init := by
  induction l with
  | nil => rfl
  | cons x xs ih =>
    rw [List.foldl_cons, h x (List.mem_cons_self x xs)]
    exact ih (fun b hb => h b (List.mem_cons_of_mem x hb))

/-- The inner scan never leaves the list: `findEndIdx` is a valid index. -/
theorem findEndIdx_lt_length (time_data : List ℚ) (s : ℕ) (t : ℚ)
    (h : time_data ≠ []) : findEndIdx time_data s t < time_data.length := by
  unfold findEndIdx
  cases hf : (List.range' s (time_data.length - s)).find?
      (fun i => t ≤ nth time_data i) with
  | none =>
    have h0 : 0 < time_data.length := List.length_pos.mpr h
    show time_data.length - 1 < time_data.length
    omega
  | some i =>
    have hm := List.mem_of_find?_eq_some hf
    rw [List.mem_range'_1] at hm
    show i < time_data.length
    omega

/-- Pointwise monotonicity of a sorted time series under `nth`. -/
theorem nth_le_nth_of_sorted (time_data : List ℚ)
    (hs : time_data.Sorted (· ≤ ·)) (i j : ℕ) (hij : i ≤ j)
    (hj : j < time_data.length) : nth time_data i ≤ nth time_data j := by
  rcases eq_or_lt_of_le hij with rfl | hlt
  · exact le_refl _
  · have hi : i < time_data.length := lt_trans hlt hj
    have hg := List.pairwise_iff_get.mp hs ⟨i, hi⟩ ⟨j, hj⟩ (Fin.mk_lt_mk.mpr hlt)
    unfold nth
    rw [List.get?_eq_get hi, List.get?_eq_get hj]
    simpa using hg

/-- C9 counterexample: `find_best_power_effort` on a single-sample series
returns that sample as a (nonzero) effort, not none. -/
theorem best_power_effort_single_sample :
    find_best_power_effort [250] [0] 60 = (250, 0, 0) ∧ (250 : ℚ) ≠ 0 := by
  constructor
  · norm_num [find_best_power_effort]
  · norm_num

/-- C9 amended: the pace variant returns none (zero effort) on any series
of fewer than two samples; both variants return none when the sorted time
series (of at least two samples) spans less than 95% of the requested
duration; the power variant returns none when no sample is positive (given
at least two samples); but the power variant on a single-sample pair
returns the sample itself, none only when that sample is zero. -/
theorem best_effort_none_amended (power_data distance_data time_data : List ℚ)
    (d : ℚ) :
    (distance_data.length < 2 →
      find_best_pace_effort distance_data time_data d = (0, 0, 0)) ∧
    (time_data.Sorted (· ≤ ·) → 2 ≤ time_data.length →
      nth time_data (time_data.length - 1) - nth time_data 0 < d * 60 * (19/20) →
      find_best_power_effort power_data time_data d = (0, 0, 0) ∧
      find_best_pace_effort distance_data time_data d = (0, 0, 0)) ∧
    (2 ≤ power_data.length → (∀ p ∈ power_data, p ≤ 0) →
      find_best_power_effort power_data time_data d = (0, 0, 0)) ∧
    (∀ x t0 : ℚ, find_best_power_effort [x] [t0] d = (x, 0, 0)) := by
  refine ⟨?_, ?_, ?_, ?_⟩
  · intro hlt
    unfold find_best_pace_effort
    by_cases hA : distance_data = [] ∨ time_data = [] ∨
        distance_data.length ≠ time_data.length
    · rw [if_pos hA]
    · rw [if_neg hA, if_pos hlt]
  · intro hs hlen2 hspan
    have htne : time_data ≠ [] := by
      intro e
      rw [e] at hlen2
      simp at hlen2
    constructor
    · unfold find_best_power_effort
      by_cases hA : power_data = [] ∨ time_data = [] ∨
          power_data.length ≠ time_data.length
      · rw [if_pos hA]
      · push_neg at hA
        rw [if_neg (by push_neg; exact hA), if_neg (by omega)]
        apply foldl_fixed
        intro start hstart
        rw [List.mem_range] at hstart
        unfold powerStep
        simp only []
        by_cases hgt : start < findEndIdx time_data start (nth time_data start + d * 60)
        · rw [if_pos hgt]
          have helt : findEndIdx time_data start (nth time_data start + d * 60) <
              time_data.length := findEndIdx_lt_length _ _ _ htne
          have hle1 : nth time_data (findEndIdx time_data start
                (nth time_data start + d * 60)) ≤
              nth time_data (time_data.length - 1) :=
            nth_le_nth_of_sorted _ hs _ _ (by omega) (by omega)
          have hle2 : nth time_data 0 ≤ nth time_data start :=
            nth_le_nth_of_sorted _ hs 0 start (by omega) hstart
          rw [if_neg (by push_neg; linarith)]
        · rw [if_neg hgt]
    · unfold find_best_pace_effort
      by_cases hA : distance_data = [] ∨ time_data = [] ∨
          distance_data.length ≠ time_data.length
      · rw [if_pos hA]
      · push_neg at hA
        rw [if_neg (by push_neg; exact hA), if_neg (by omega)]
        apply foldl_fixed
        intro start hstart
        rw [List.mem_range] at hstart
        unfold paceStep
        simp only []
        by_cases hgt : start < findEndIdx time_data start (nth time_data start + d * 60)
        · rw [if_pos hgt]
          have helt : findEndIdx time_data start (nth time_data start + d * 60) <
              time_data.length := findEndIdx_lt_length _ _ _ htne
          have hle1 : nth time_data (findEndIdx time_data start
                (nth time_data start + d * 60)) ≤
              nth time_data (time_data.length - 1) :=
            nth_le_nth_of_sorted _ hs _ _ (by omega) (by omega)
          have hle2 : nth time_data 0 ≤ nth time_data start :=
            nth_le_nth_of_sorted _ hs 0 start (by omega) hstart
          rw [if_neg (by push_neg; linarith)]
        · rw [if_neg hgt]
  · intro hlen hnp
    unfold find_best_power_effort
    by_cases hA : power_data = [] ∨ time_data = [] ∨
        power_data.length ≠ time_data.length
    · rw [if_pos hA]
    · push_neg at hA
      rw [if_neg (by push_neg; exact hA), if_neg (by omega)]
      apply foldl_fixed
      intro start hstart
      unfold powerStep
      simp only []
      by_cases hgt : start < findEndIdx time_data start (nth time_data start + d * 60)
      · rw [if_pos hgt]
        by_cases hdur : nth time_data (findEndIdx time_data start
            (nth time_data start + d * 60)) - nth time_data start ≥ d * 60 * (19/20)
        · rw [if_pos hdur]
          have hfil : ((power_data.drop start).take
              (findEndIdx time_data start (nth time_data start + d * 60) + 1 - start)).filter
                (fun p => decide (0 < p)) = [] := by
            rw [List.filter_eq_nil_iff]
            intro a ha
            have hmem : a ∈ power_data :=
              List.mem_of_mem_drop (List.mem_of_mem_take ha)
            simpa using hnp a hmem
          rw [hfil, mean_nil, if_neg (by norm_num)]
        · rw [if_neg hdur]
      · rw [if_neg hgt]
  · intro x t0
    unfold find_best_power_effort
    rw [if_neg (by simp), if_pos (by norm_num)]
    simp

/-- Witness for C9 amended: a two-sample, one-second stream cannot hold any
60-minute effort, and an all-zero power stream yields no effort. -/
theorem best_effort_none_amended_witness :
    find_best_power_effort [100, 100] [0, 1] 60 = (0, 0, 0) ∧
      find_best_pace_effort [0, 5] [0, 1] 60 = (0, 0, 0) ∧
      find_best_power_effort [0, 0] [0, 1] 60 = (0, 0, 0) ∧
      find_best_pace_effort [7] [0] 60 = (0, 0, 0) := by
  have h1 := (best_effort_none_amended [100, 100] [0, 5] [0, 1] 60).2.1
    (by norm_num [List.sorted_cons]) (by norm_num)
    (by norm_num [nth])
  have h2 := (best_effort_none_amended [0, 0] [7] [0, 1] 60).2.2.1 (by norm_num)
    (by intro p hp; rcases List.mem_pair.mp hp with rfl | rfl <;> norm_num)
  have h3 := (best_effort_none_amended [100, 100] [7] [0] 60).1 (by norm_num)
  exact ⟨h1.1, h1.2, h2, h3⟩

/-- String append acts on the underlying character lists. -/
theorem string_data_append (x y : String) : (x ++ y).data = x.data ++ y.data := rfl

/-- Two appends with distinct head characters are distinct strings. -/
theorem ne_append_of_head_ne (a b : String) (c1 c2 : Char) (l1 l2 : List Char)
    (ha : a.data = c1 :: l1) (hb : b.data = c2 :: l2) (hne : c1 ≠ c2)
    (s1 s2 : String) : a ++ s1 ≠ b ++ s2 := by
  intro h
  have hd := congrArg String.data h
  rw [string_data_append, string_data_append, ha, hb] at hd
  simp only [List.cons_append] at hd
  exact hne (List.head_eq_of_cons_eq hd)

/-- A string is distinct from any append whose head character differs. -/
theorem ne_append_right (a b : String) (c1 c2 : Char) (l1 l2 : List Char)
    (ha : a.data = c1 :: l1) (hb : b.data = c2 :: l2) (hne : c1 ≠ c2)
    (s2 : String) : a ≠ b ++ s2 := by
  intro h
  have hd := congrArg String.data h
  rw [string_data_append, ha, hb] at hd
  simp only [List.cons_append] at hd
  exact hne (List.head_eq_of_cons_eq hd)

/-- The TSS rule only ever tags `TSS`. -/
theorem rule_tss_tag (a : String) (mt : ℚ) (t : Threshold) (str : Option Streams)
    (r : ℝ × String) (h : rule_tss a mt t str = some r) : r.2 = "TSS" := by
  unfold rule_tss at h
  repeat' split at h
  all_goals (try exact Option.noConfusion h)
  all_goals injection h with h2
  all_goals exact (congrArg Prod.snd h2).symm

/-- The rTSS rule only ever tags `rTSS`. -/
theorem rule_rtss_tag (a : String) (mt dm : ℚ) (t : Threshold)
    (r : ℚ × String) (h : rule_rtss a mt dm t = some r) : r.2 = "rTSS" := by
  unfold rule_rtss at h
  repeat' split at h
  all_goals (try exact Option.noConfusion h)
  all_goals injection h with h2
  all_goals exact (congrArg Prod.snd h2).symm

/-- The TRIMP rule only ever tags `TRIMP`. -/
theorem rule_trimp_tag (a : String) (mt : ℚ) (t : Threshold) (str : Option Streams)
    (r : ℝ × String) (h : rule_trimp a mt t str = some r) : r.2 = "TRIMP" := by
  unfold rule_trimp at h
  rcases Option.map_eq_some'.mp h with ⟨x, _, rfl⟩
  rfl

/-- The intensity classification is one of the four band names. -/
theorem intensity_classification_mem (dd td : List ℚ) (c : String)
    (h : intensity_classification dd td = some c) :
    c = "high_intensity" ∨ c = "tempo" ∨ c = "aerobic_base" ∨ c = "recovery" := by
  unfold intensity_classification at h
  repeat' (first | split at h | dsimp only [] at h)
  all_goals (try exact Option.noConfusion h)
  all_goals injection h with h2
  all_goals (subst h2)
  all_goals decide

/-- The running-intensity rule only ever tags `running_intensity_<band>`. -/
theorem rule_running_intensity_tag (a : String) (mtH : ℚ) (str : Option Streams)
    (r : ℚ × String) (h : rule_running_intensity a mtH str = some r) :
    ∃ c, (c = "high_intensity" ∨ c = "tempo" ∨ c = "aerobic_base" ∨ c = "recovery") ∧
      r.2 = "running_intensity_" ++ c := by
  unfold rule_running_intensity at h
  repeat' (first | split at h | dsimp only [] at h)
  all_goals (try exact Option.noConfusion h)
  rename_i cls hcls
  injection h with h2
  exact ⟨cls, intensity_classification_mem _ _ _ hcls, (congrArg Prod.snd h2).symm⟩

/-- The power-intensity rule only ever tags `power_intensity`. -/
theorem rule_power_intensity_tag (a : String) (mtH : ℚ) (t : Threshold)
    (str : Option Streams) (r : ℚ × String)
    (h : rule_power_intensity a mtH t str = some r) : r.2 = "power_intensity" := by
  unfold rule_power_intensity at h
  repeat' split at h
  all_goals (try exact Option.noConfusion h)
  all_goals injection h with h2
  all_goals exact (congrArg Prod.snd h2).symm

/-- When the TRIMP rule declines, so does the heart-rate-intensity rule:
their guards are the same `hr_rule_data`. -/
theorem rule_hr_intensity_none_of_trimp_none (a : String) (mt mtH : ℚ)
    (t : Threshold) (str : Option Streams) (h : rule_trimp a mt t str = none) :
    rule_hr_intensity mtH t str = none := by
  unfold rule_trimp at h
  unfold rule_hr_intensity
  rw [Option.map_eq_none'] at h
  rw [h]
  rfl

/-- C3 amended: the wellness modifier — the product of the HRV, sleep-score
and readiness sub-modifiers with the claimed brackets — is applied, with its
name suffix, only when the conservative time-based fallback fires; every
earlier rule (TSS, rTSS, TRIMP, running/power intensity) returns its score
and tag unchanged, ignoring the wellness sample. -/
theorem wellness_modifier_only_on_conservative (s : ActivitySummary)
    (t : Threshold) (str : Option Streams) (w : Wellness) :
    (∀ (b : ℝ) (w' : Wellness),
      (apply_wellness_modifiers b (some w')).1 =
        b * ((hrv_modifier w'.hrv * sleep_modifier w'.sleepScore *
          readiness_modifier w'.readiness : ℚ) : ℝ)) ∧
    calculate_utl s t str (some w) =
      (let r := calculate_utl s t str none
       if r.2 = "conservative_time_based" then
         ((apply_wellness_modifiers r.1 (some w)).1,
           r.2 ++ (apply_wellness_modifiers r.1 (some w)).2)
       else r) := by
  refine ⟨fun b w' => rfl, ?_⟩
  simp only [calculate_utl]
  by_cases h0 : s.moving_time / 3600 = 0
  · simp [h0]
  · simp only [if_neg h0]
    cases htss : rule_tss (str_lower s.type) s.moving_time t str with
    | some r =>
      have ht := rule_tss_tag _ _ _ _ _ htss
      simp [htss, ht]
    | none =>
      simp only [htss]
      cases hrtss : rule_rtss (str_lower s.type) s.moving_time s.distance t with
      | some r =>
        have ht := rule_rtss_tag _ _ _ _ _ hrtss
        simp [hrtss, ht]
      | none =>
        simp only [hrtss]
        cases htr : rule_trimp (str_lower s.type) s.moving_time t str with
        | some r =>
          have ht := rule_trimp_tag _ _ _ _ _ htr
          simp [htr, ht]
        | none =>
          have hhr := rule_hr_intensity_none_of_trimp_none (str_lower s.type)
            s.moving_time (s.moving_time / 3600) t str htr
          simp only [htr]
          cases hri : rule_running_intensity (str_lower s.type) (s.moving_time / 3600)
              str with
          | some r =>
            obtain ⟨c, _, htag⟩ := rule_running_intensity_tag _ _ _ _ hri
            have hne : r.2 ≠ "conservative_time_based" := by
              rw [htag]
              exact Ne.symm (ne_append_right "conservative_time_based"
                "running_intensity_" 'c' 'r' _ _ rfl rfl (by decide) c)
            simp [hri, hne]
          | none =>
            simp only [hri]
            cases hpi : rule_power_intensity (str_lower s.type) (s.moving_time / 3600)
                t str with
            | some r =>
              have ht := rule_power_intensity_tag _ _ _ _ _ hpi
              simp [hpi, ht]
            | none =>
              simp [hpi, hhr]

/-- C3 counterexample: on a heart-rate activity where the TRIMP rule fires
and a wellness sample with HRV 10 is supplied (sub-modifier `0.8`), the
returned tag is exactly `TRIMP` — no modifier names are appended — and the
returned score is the unmodified rule score, not the score times `0.8`. -/
theorem wellness_ignored_on_trimp_counterexample :
    (calculate_utl ⟨"run", 3600, 0⟩ ⟨none, none, some 190, some 50⟩
        (some ⟨none, some [120], none, none⟩) (some ⟨some 10, none, none⟩)).2 =
      "TRIMP" ∧
    hrv_modifier (some 10) = 4/5 ∧
    (calculate_utl ⟨"run", 3600, 0⟩ ⟨none, none, some 190, some 50⟩
        (some ⟨none, some [120], none, none⟩) (some ⟨some 10, none, none⟩)).1 =
      (calculate_utl ⟨"run", 3600, 0⟩ ⟨none, none, some 190, some 50⟩
        (some ⟨none, some [120], none, none⟩) none).1 ∧
    (calculate_utl ⟨"run", 3600, 0⟩ ⟨none, none, some 190, some 50⟩
        (some ⟨none, some [120], none, none⟩) none).1 ≠
      (4/5 : ℝ) * (calculate_utl ⟨"run", 3600, 0⟩ ⟨none, none, some 190, some 50⟩
        (some ⟨none, some [120], none, none⟩) none).1 := by
  have hev : ∀ w' : Option Wellness,
      calculate_utl ⟨"run", 3600, 0⟩ ⟨none, none, some 190, some 50⟩
        (some ⟨none, some [120], none, none⟩) w' =
      (calculate_improved_trimp [120] 190 50 3600 "run", "TRIMP") := by
    intro w'
    norm_num [calculate_utl, rule_tss, rule_rtss, rule_trimp, hr_rule_data, truthy,
      show str_lower "run" = "run" from rfl]
  have hpos : 0 < calculate_improved_trimp [120] 190 50 3600 "run" := by
    have hcl : clamp01 ((mean [120] - 50) / (190 - 50)) = 1/2 := by
      norm_num [mean, clamp01, min_def, max_def]
    unfold calculate_improved_trimp
    rw [if_neg (by norm_num)]
    simp only [hcl, show activity_scaling "run" = 1 from rfl]
    apply lt_min
    · have hexp := Real.exp_pos ((3:ℝ)/2 * (((1:ℚ)/2 : ℚ) : ℝ))
      push_cast
      push_cast at hexp
      nlinarith
    · push_cast
      norm_num
  refine ⟨by rw [hev], by norm_num [hrv_modifier], by rw [hev, hev], ?_⟩
  rw [hev]
  intro heq
  nlinarith

/-- C10: `compute_utl` never returns a method tag beginning with
`hr_intensity`: the heart-rate-intensity rule's guard is the TRIMP rule's
guard, and the TRIMP rule returns first, so the rule is unreachable. -/
theorem calculate_utl_never_hr_intensity (s : ActivitySummary) (t : Threshold)
    (str : Option Streams) (w : Option Wellness) (su : String) :
    (calculate_utl s t str w).2 ≠ "hr_intensity" ++ su := by
  simp only [calculate_utl]
  by_cases h0 : s.moving_time / 3600 = 0
  · simp only [if_pos h0]
    exact ne_append_right "no_time" "hr_intensity" 'n' 'h' _ _ rfl rfl (by decide) su
  · simp only [if_neg h0]
    cases htss : rule_tss (str_lower s.type) s.moving_time t str with
    | some r =>
      simp only [htss]
      rw [show r.2 = "TSS" from rule_tss_tag _ _ _ _ _ htss]
      exact ne_append_right "TSS" "hr_intensity" 'T' 'h' _ _ rfl rfl (by decide) su
    | none =>
      simp only [htss]
      cases hrtss : rule_rtss (str_lower s.type) s.moving_time s.distance t with
      | some r =>
        simp only [hrtss]
        try dsimp only []
        rw [show r.2 = "rTSS" from rule_rtss_tag _ _ _ _ _ hrtss]
        exact ne_append_right "rTSS" "hr_intensity" 'r' 'h' _ _ rfl rfl (by decide) su
      | none =>
        simp only [hrtss]
        cases htr : rule_trimp (str_lower s.type) s.moving_time t str with
        | some r =>
          simp only [htr]
          rw [show r.2 = "TRIMP" from rule_trimp_tag _ _ _ _ _ htr]
          exact ne_append_right "TRIMP" "hr_intensity" 'T' 'h' _ _ rfl rfl
            (by decide) su
        | none =>
          have hhr := rule_hr_intensity_none_of_trimp_none (str_lower s.type)
            s.moving_time (s.moving_time / 3600) t str htr
          simp only [htr]
          cases hri : rule_running_intensity (str_lower s.type) (s.moving_time / 3600)
              str with
          | some r =>
            obtain ⟨c, _, htag⟩ := rule_running_intensity_tag _ _ _ _ hri
            simp only [hri]
            try dsimp only []
            rw [htag]
            exact ne_append_of_head_ne "running_intensity_" "hr_intensity" 'r' 'h'
              _ _ rfl rfl (by decide) c su
          | none =>
            simp only [hri]
            cases hpi : rule_power_intensity (str_lower s.type) (s.moving_time / 3600)
                t str with
            | some r =>
              simp only [hpi]
              try dsimp only []
              rw [show r.2 = "power_intensity" from
                rule_power_intensity_tag _ _ _ _ _ hpi]
              exact ne_append_right "power_intensity" "hr_intensity" 'p' 'h' _ _
                rfl rfl (by decide) su
            | none =>
              simp only [hpi, hhr]
              cases w with
              | none =>
                try dsimp only []
                exact ne_append_right "conservative_time_based" "hr_intensity"
                  'c' 'h' _ _ rfl rfl (by decide) su
              | some ww =>
                try dsimp only []
                exact ne_append_of_head_ne "conservative_time_based" "hr_intensity"
                  'c' 'h' _ _ rfl rfl (by decide) _ su

/-- Witness for C10 at a concrete activity and suffix. -/
theorem calculate_utl_never_hr_intensity_witness :
    (calculate_utl ⟨"run", 3600, 0⟩ ⟨none, none, none, none⟩ none none).2 ≠
      "hr_intensity" ++ "0.5" :=
  calculate_utl_never_hr_intensity ⟨"run", 3600, 0⟩ ⟨none, none, none, none⟩
    none none "0.5"

end TrainingLoad
